import Mathlib

/-!
Verification development for the nb-wrangler orchestration core.

The definitions below are a shallow embedding of the Python sources
`nb_wrangler/wrangler.py`, `nb_wrangler/environment.py`, `nb_wrangler/cli.py`
and `nb_wrangler/config.py`.  External collaborators (spec manager, pantry,
repository manager, subprocess wrappers) are represented by universally
quantified function parameters, since the orchestration logic treats them as
opaque boolean-returning calls.  Machine-level details (file systems,
subprocesses) are represented by explicit state records.
-/

namespace NbWrangler

/-- Log severity levels used by the wrangler logger. -/
inductive LogLevel where
  | debug
  | info
  | warning
  | error
  deriving DecidableEq, Repr

/-- Mutable state threaded through orchestration steps: the log of emitted
messages plus a generic key/value store standing for all other side effects a
step may perform (files written, spec revisions, environments created). -/
structure RunState where
  log : List (LogLevel × String)
  store : List (String × String)
  deriving DecidableEq, Repr

/-- Append a log record to the state. -/
def addLog (lvl : LogLevel) (msg : String) (s : RunState) : RunState :=
  { s with log := s.log ++ [(lvl, msg)] }

def addInfo (msg : String) (s : RunState) : RunState := addLog LogLevel.info msg s

def addDebug (msg : String) (s : RunState) : RunState := addLog LogLevel.debug msg s

def addWarn (msg : String) (s : RunState) : RunState := addLog LogLevel.warning msg s

def addErr (msg : String) (s : RunState) : RunState := addLog LogLevel.error msg s

/-- Modelled from the spec: `logger.py` is not among the provided sources.
Per the specification (section 7) steps report success/failure as boolean-like
results, and throughout `wrangler.py` the idiom `return self.logger.error(...)`
is the failure result while `return self.logger.info(...)` is the success
result; hence `logger.error` logs and returns `False`. -/
def logErrorB (msg : String) (s : RunState) : Bool × RunState :=
  (false, addErr msg s)

/-- Modelled from the spec: `logger.info` logs and returns `True`
(counterpart of `logErrorB`; see its comment). -/
def logInfoB (msg : String) (s : RunState) : Bool × RunState :=
  (true, addInfo msg s)

/-- Modelled from the spec: `logger.warning` logs and returns `True`; in
`wrangler.py` warning returns are used on success paths, e.g.
`_validate_spec_sha256` under `--spec-ignore-hash`. -/
def logWarnB (msg : String) (s : RunState) : Bool × RunState :=
  (true, addWarn msg s)

/-- Modelled from the spec: `logger.exception` logs the fault and returns a
falsy failure result; `NotebookWrangler.main` returns it directly as the
failure value of the run. -/
def logExceptionB (msg : String) (s : RunState) : Bool × RunState :=
  (false, addErr msg s)

/-- Python truthiness of an optional string: `None` and `""` are falsy. -/
def pyTruthyO : Option String → Bool
  | none => false
  | some s => s != ""

/-- Python `a or b` on optional strings: returns `a` when truthy, else `b`.
Used to embed the `or`-chain in `NotebookWrangler.resolved_kname`. -/
def pyOrStr (a b : Option String) : Option String :=
  match a with
  | none => b
  | some s => if s = "" then b else some s

/-- The three kernel-name sources read by `NotebookWrangler.resolved_kname`:
`self.compiled_kernel_name` (set by the compile step of this run),
`self.spec_manager.get_output_data("kernel_name")` (the spec output section),
and `self.env_name` (the kernel name declared in the spec input section). -/
structure WranglerNames where
  compiled_kernel_name : Option String
  output_kernel_name : Option String
  env_name : Option String
  deriving DecidableEq, Repr

/-- Embedding of the `resolved_kname` property (`wrangler.py` lines 52-66):
`self.compiled_kernel_name or self.spec_manager.get_output_data("kernel_name")
or self.env_name`. -/
def resolved_kname (w : WranglerNames) : Option String :=
  pyOrStr w.compiled_kernel_name (pyOrStr w.output_kernel_name w.env_name)

theorem pyOrStr_truthy {a : Option String} (b : Option String) {n : String}
    (ha : a = some n) (hn : n ≠ "") : pyOrStr a b = some n := by
  subst ha
  simp [pyOrStr, hn]

theorem pyOrStr_falsy {a : Option String} (b : Option String)
    (ha : pyTruthyO a = false) : pyOrStr a b = b := by
  cases a with
  | none => rfl
  | some s =>
    simp [pyTruthyO] at ha
    simp [pyOrStr, ha]

/-- C1: the resolved kernel name is chosen by three-tier priority: the name
produced by this run's compile step when set (non-empty), otherwise the
`kernel_name` recorded in the specification's output section, otherwise the
name declared in the specification's input section.  In particular, for a
document with only an input-section name `resolved_kname` equals that name,
and after a successful compile `resolved_kname` equals the compiled name even
when the input-section name differs. -/
theorem C1_resolved_kname_priority :
    (∀ (w : WranglerNames) (n : String),
      w.compiled_kernel_name = some n → n ≠ "" → resolved_kname w = some n)
    ∧ (∀ (w : WranglerNames) (k : String),
      pyTruthyO w.compiled_kernel_name = false →
      w.output_kernel_name = some k → k ≠ "" → resolved_kname w = some k)
    ∧ (∀ w : WranglerNames,
      pyTruthyO w.compiled_kernel_name = false →
      pyTruthyO w.output_kernel_name = false → resolved_kname w = w.env_name)
    ∧ (∀ n : String, n ≠ "" →
      resolved_kname ⟨none, none, some n⟩ = some n)
    ∧ (∀ c i : String, c ≠ "" → i ≠ c →
      resolved_kname ⟨some c, none, some i⟩ = some c) := by
  refine ⟨?_, ?_, ?_, ?_, ?_⟩
  · intro w n hc hn
    unfold resolved_kname
    exact pyOrStr_truthy _ hc hn
  · intro w k hc ho hk
    unfold resolved_kname
    rw [pyOrStr_falsy _ hc]
    exact pyOrStr_truthy _ ho hk
  · intro w hc ho
    unfold resolved_kname
    rw [pyOrStr_falsy _ hc, pyOrStr_falsy _ ho]
  · intro n hn
    unfold resolved_kname
    simp [pyOrStr, hn]
  · intro c i hc _
    unfold resolved_kname
    simp [pyOrStr, hc]

/-- Concrete instantiation of `C1_resolved_kname_priority`: an input-only
document resolves to the input name, and a compiled name wins over a
differing input name. -/
theorem C1_resolved_kname_priority_witness :
    resolved_kname ⟨none, none, some "tess-kernel"⟩ = some "tess-kernel"
    ∧ resolved_kname ⟨some "compiled-env", none, some "tess-kernel"⟩
        = some "compiled-env" := by
  constructor
  · exact C1_resolved_kname_priority.2.2.2.1 "tess-kernel" (by decide)
  · exact C1_resolved_kname_priority.2.2.2.2 "compiled-env" "tess-kernel"
      (by decide) (by decide)

/-- A wrangler step: reads and writes the run state and reports success. -/
def WStep : Type := RunState → Bool × RunState

/-- A step that succeeds without touching the state (used for witnesses and
as inert structure defaults). -/
def wfOk : WStep := fun s => (true, s)

/-- A step that fails without touching the state (used for witnesses). -/
def wfFail : WStep := fun s => (false, s)

/-- The empty initial run state (used for witnesses). -/
def s0 : RunState := ⟨[], []⟩

/-- The configuration fields of `WranglerConfig` (`config.py`) consulted by
the orchestration core: the selected named workflows, the dev flag, the
explicit-step flags in their source order, and the data/SPI modifiers. -/
structure Config where
  workflows : List String := []
  dev : Bool := false
  clone_repos : Bool := false
  packages_compile : Bool := false
  env_init : Bool := false
  packages_install : Bool := false
  test_all : Option String := none
  test_imports : Option String := none
  test_notebooks : Option String := none
  spec_update_hash : Bool := false
  spec_validate : Bool := false
  env_pack : Bool := false
  env_unpack : Bool := false
  env_register : Bool := false
  env_unregister : Bool := false
  env_print_name : Bool := false
  spec_add : Bool := false
  spec_list : Bool := false
  finalize_dev_overrides : Bool := false
  data_collect : Bool := false
  data_list : Bool := false
  data_download : Bool := false
  data_delete : String := ""
  data_update : Bool := false
  data_validate : Bool := false
  data_unpack : Bool := false
  data_pack : Bool := false
  data_print_exports : Bool := false
  data_symlinks : Bool := false
  delete_repos : Bool := false
  packages_uninstall : Bool := false
  env_delete : Bool := false
  env_kernel_cleanup : Bool := false
  env_compact : Bool := false
  spec_reset : Bool := false
  data_reset_spec : Bool := false
  reset_log : Bool := false
  spi_branch : String := ""
  spi_commit_message : String := ""
  spi_prune : Bool := false
  spi_build : Bool := false
  spi_push : Bool := false
  spi_pr : Bool := false
  data_env_vars_mode : String := ""
  data_no_unpack_existing : Bool := false
  data_no_symlinks : Bool := false
  deriving DecidableEq, Repr

/-- The individual wrangler step methods.  Each performs external work
(subprocesses, file writes, spec revisions) that the orchestrator treats as an
opaque boolean-returning call, so each is an arbitrary `WStep`.
`outputs_exist_mamba_pip` stands for
`spec_manager.outputs_exist("mamba_spec", "pip_compiler_output")` and
`setupEffect` for the `os.environ` mutation of `_setup_environment` (whose
return value is the literal `True`). -/
structure StepImpl where
  setupEffect : RunState → RunState := id
  prepare_all_repositories : WStep := wfOk
  prepare_all_repositories_locked : WStep := wfOk
  compile_requirements : WStep := wfOk
  initialize_environment : WStep := wfOk
  install_packages : WStep := wfOk
  save_final_spec : WStep := wfOk
  validate_spec : WStep := wfOk
  submit_for_build_step : WStep := wfOk
  inject_spi_step : WStep := wfOk
  spi_cm_and_optional_build : WStep := wfOk
  spi_commit_push_pr : WStep := wfOk
  spec_add_step : WStep := wfOk
  data_collect_step : WStep := wfOk
  data_download_step : WStep := wfOk
  data_update_step : WStep := wfOk
  data_validate_step : WStep := wfOk
  data_unpack_step : WStep := wfOk
  delete_environment : WStep := wfOk
  reset_spec_step : WStep := wfOk
  reset_log_step : WStep := wfOk
  outputs_exist_mamba_pip : Bool := true
  test_imports_step : WStep := wfOk
  test_notebooks_step : WStep := wfOk
  update_spec_sha256 : WStep := wfOk
  pack_environment : WStep := wfOk
  unpack_environment : WStep := wfOk
  register_environment : WStep := wfOk
  unregister_environment : WStep := wfOk
  env_print_name_step : WStep := wfOk
  spec_list_step : WStep := wfOk
  finalize_dev_overrides_step : WStep := wfOk
  data_list_step : WStep := wfOk
  data_delete_step : WStep := wfOk
  data_pack_step : WStep := wfOk
  data_print_exports_step : WStep := wfOk
  data_symlink_install_data : WStep := wfOk
  delete_repos_step : WStep := wfOk
  uninstall_packages : WStep := wfOk
  cleanup_kernels : WStep := wfOk
  env_compact_step : WStep := wfOk
  data_reset_spec_step : WStep := wfOk

/-- The step loop of `NotebookWrangler.run_workflow` (`wrangler.py` lines
213-219): log the step banner, run the step, stop with a logged error on the
first failure, log completion after the last step. -/
def run_workflow_steps (name : String) : List (String × WStep) → RunState → Bool × RunState
  | [], s => logInfoB ("Workflow " ++ name ++ " completed.") s
  | (sn, f) :: rest, s =>
    match f (addInfo ("Step " ++ sn ++ " of Workflow " ++ name ++ ".") s) with
    | (false, s₂) => logErrorB ("FAILED Workflow " ++ name ++ " Step " ++ sn ++ ".") s₂
    | (true, s₂) => run_workflow_steps name rest s₂

/-- `NotebookWrangler.run_workflow` (`wrangler.py` lines 211-219). -/
def run_workflow (name : String) (steps : List (String × WStep)) (s : RunState) :
    Bool × RunState :=
  run_workflow_steps name steps (addInfo ("Running " ++ name ++ " workflow") s)

/-- `_run_development_workflow` (`wrangler.py` lines 221-232). -/
def run_development_workflow (impl : StepImpl) : WStep := fun s =>
  run_workflow "--curate"
    [("_prepare_all_repositories", impl.prepare_all_repositories),
     ("_compile_requirements", impl.compile_requirements),
     ("_initialize_environment", impl.initialize_environment),
     ("_install_packages", impl.install_packages),
     ("_save_final_spec", impl.save_final_spec)] s

/-- `_run_data_curation_workflow` (`wrangler.py` lines 234-248). -/
def run_data_curation_workflow (impl : StepImpl) : WStep := fun s =>
  run_workflow "--data-curate"
    [("_prepare_all_repositories", impl.prepare_all_repositories),
     ("_spec_add", impl.spec_add_step),
     ("_data_collect", impl.data_collect_step),
     ("_data_download", impl.data_download_step),
     ("_data_update", impl.data_update_step),
     ("_data_validate", impl.data_validate_step),
     ("_data_unpack", impl.data_unpack_step),
     ("_save_final_spec", impl.save_final_spec)] s

/-- `_run_submit_build_workflow` (`wrangler.py` lines 250-259). -/
def run_submit_build_workflow (impl : StepImpl) : WStep := fun s =>
  run_workflow "--submit-for-build"
    [("_validate_spec", impl.validate_spec),
     ("_prepare_all_repositories", impl.prepare_all_repositories),
     ("_submit_for_build", impl.submit_for_build_step)] s

/-- `_inject_spi_workflow` (`wrangler.py` lines 261-284) with its optional
follow-on SPI branch/commit/push/PR phases. -/
def inject_spi_workflow (cfg : Config) (impl : StepImpl) : WStep := fun s =>
  match run_workflow "--inject-spi"
      [("_validate_spec", impl.validate_spec),
       ("_prepare_all_repositories", impl.prepare_all_repositories),
       ("_inject_spi", impl.inject_spi_step)] s with
  | (false, s₁) => (false, s₁)
  | (true, s₁) =>
    let requires_branch_name :=
      cfg.spi_prune || cfg.spi_build || cfg.spi_commit_message != ""
        || cfg.spi_push || cfg.spi_pr
    if requires_branch_name then
      match impl.spi_cm_and_optional_build s₁ with
      | (false, s₂) => (false, s₂)
      | (true, s₂) => impl.spi_commit_push_pr s₂
    else (true, s₁)

/-- `_run_reinstall_spec_workflow` (`wrangler.py` lines 319-340): requires a
precompiled spec (`mamba_spec` and `pip_compiler_output` outputs). -/
def run_reinstall_spec_workflow (impl : StepImpl) : WStep := fun s =>
  if !impl.outputs_exist_mamba_pip then
    logErrorB "This workflow requires a precompiled spec with outputs" s
  else
    run_workflow "--reinstall"
      [("_prepare_all_repositories_locked", impl.prepare_all_repositories_locked),
       ("_validate_spec", impl.validate_spec),
       ("_spec_add", impl.spec_add_step),
       ("_initialize_environment", impl.initialize_environment),
       ("_install_packages", impl.install_packages)] s

/-- `_run_data_reinstall_workflow` (`wrangler.py` lines 342-353). -/
def run_data_reinstall_workflow (impl : StepImpl) : WStep := fun s =>
  run_workflow "--data-reinstall"
    [("_validate_spec", impl.validate_spec),
     ("_spec_add", impl.spec_add_step),
     ("_data_download", impl.data_download_step),
     ("_data_validate", impl.data_validate_step),
     ("_data_unpack", impl.data_unpack_step)] s

/-- `_run_reset_curation` (`wrangler.py` lines 355-365). -/
def run_reset_curation (impl : StepImpl) : WStep := fun s =>
  run_workflow "--data-reset-curation"
    [("_delete_environment", impl.delete_environment),
     ("_reset_spec", impl.reset_spec_step),
     ("_save_final_spec", impl.save_final_spec),
     ("_reset_log", impl.reset_log_step)] s

/-- The `workflow_map` dictionary of `_main_uncaught_core`
(`wrangler.py` lines 142-150). -/
def workflow_map (cfg : Config) (impl : StepImpl) : String → Option WStep :=
  fun n =>
    if n = "curation" then some (run_development_workflow impl)
    else if n = "submit_for_build" then some (run_submit_build_workflow impl)
    else if n = "inject_spi" then some (inject_spi_workflow cfg impl)
    else if n = "reinstall" then some (run_reinstall_spec_workflow impl)
    else if n = "data_curation" then some (run_data_curation_workflow impl)
    else if n = "data_reinstall" then some (run_data_reinstall_workflow impl)
    else if n = "reset_curation" then some (run_reset_curation impl)
    else none

/-- The workflow dispatch loop of `_main_uncaught_core` (`wrangler.py` lines
151-155): an undefined workflow name or a failing workflow ends the run with
a logged error; otherwise the remaining workflows run on the updated state. -/
def processWorkflows (wm : String → Option WStep) : List String → RunState → Bool × RunState
  | [], s => (true, s)
  | n :: rest, s =>
    match wm n with
    | none => logErrorB ("Undefined workflow " ++ n ++ ".") s
    | some f =>
      match f s with
      | (false, s') => logErrorB ("Workflow " ++ n ++ " failed.  Exiting...") s'
      | (true, s') => processWorkflows wm rest s'

/-- `_apply_dev_mode_defaults` (`wrangler.py` lines 160-205): returns the new
value of `config.dev` together with the log records emitted.  `dev` is the
explicit CLI `--dev` setting and `dev_overrides_exist` the result of
`spec_manager.dev_overrides_exist()`. -/
def apply_dev_mode_defaults (workflows : List String) (dev : Bool)
    (dev_overrides_exist : Bool) : Bool × List (LogLevel × String) :=
  if workflows.contains "curation" || workflows.contains "data_curation" then
    if !dev then
      if dev_overrides_exist then
        (true, [(LogLevel.info,
          "Implicitly activating --dev for curation workflow as dev_overrides exist.")])
      else
        (false, [(LogLevel.warning,
          "No dev_overrides found. Curation will proceed without development overrides.")])
    else (dev, [])
  else if workflows.contains "reinstall" || workflows.contains "data_reinstall" then
    if !dev then (false, [])
    else if !dev_overrides_exist then
      (dev, [(LogLevel.error,
        "Explicit --dev used for reinstall workflow but no dev_overrides found in spec. This may lead to unexpected behavior.")])
    else (dev, [])
  else if !dev then (false, [])
  else (dev, [])

/-- The ordered flag/step table of `_run_explicit_steps` (`wrangler.py` lines
369-404), in source order.  A flag that is an optional regex string
(`test_all`, `test_imports`, `test_notebooks`) or a plain string
(`data_delete`) participates through Python truthiness. -/
def flags_and_steps (cfg : Config) (impl : StepImpl) : List (Bool × String × WStep) :=
  [(cfg.clone_repos, "_prepare_all_repositories", impl.prepare_all_repositories),
   (cfg.packages_compile, "_compile_requirements", impl.compile_requirements),
   (cfg.env_init, "_initialize_environment", impl.initialize_environment),
   (cfg.packages_install, "_install_packages", impl.install_packages),
   (pyTruthyO cfg.test_all || pyTruthyO cfg.test_imports,
     "_test_imports", impl.test_imports_step),
   (pyTruthyO cfg.test_all || pyTruthyO cfg.test_notebooks,
     "_test_notebooks", impl.test_notebooks_step),
   (cfg.spec_update_hash, "_update_spec_sha256", impl.update_spec_sha256),
   (cfg.spec_validate, "_validate_spec", impl.validate_spec),
   (cfg.env_pack, "_pack_environment", impl.pack_environment),
   (cfg.env_unpack, "_unpack_environment", impl.unpack_environment),
   (cfg.env_register, "_register_environment", impl.register_environment),
   (cfg.env_unregister, "_unregister_environment", impl.unregister_environment),
   (cfg.env_print_name, "_env_print_name", impl.env_print_name_step),
   (cfg.spec_add, "_spec_add", impl.spec_add_step),
   (cfg.spec_list, "_spec_list", impl.spec_list_step),
   (cfg.finalize_dev_overrides, "_finalize_dev_overrides", impl.finalize_dev_overrides_step),
   (cfg.data_collect, "_data_collect", impl.data_collect_step),
   (cfg.data_list, "_data_list", impl.data_list_step),
   (cfg.data_download, "_data_download", impl.data_download_step),
   (cfg.data_delete != "", "_data_delete", impl.data_delete_step),
   (cfg.data_update, "_data_update", impl.data_update_step),
   (cfg.data_validate, "_data_validate", impl.data_validate_step),
   (cfg.data_unpack, "_data_unpack", impl.data_unpack_step),
   (cfg.data_pack, "_data_pack", impl.data_pack_step),
   (cfg.data_print_exports, "_data_print_exports", impl.data_print_exports_step),
   (cfg.data_symlinks, "_data_symlink_install_data", impl.data_symlink_install_data),
   (cfg.delete_repos, "_delete_repos", impl.delete_repos_step),
   (cfg.packages_uninstall, "_uninstall_packages", impl.uninstall_packages),
   (cfg.env_delete, "_delete_environment", impl.delete_environment),
   (cfg.env_kernel_cleanup, "_cleanup_kernels", impl.cleanup_kernels),
   (cfg.env_compact, "_env_compact", impl.env_compact_step),
   (cfg.spec_reset, "_reset_spec", impl.reset_spec_step),
   (cfg.data_reset_spec, "_data_reset_spec", impl.data_reset_spec_step),
   (cfg.reset_log, "_reset_log", impl.reset_log_step)]

/-- The log line emitted before an explicit step executes. -/
def stepBanner (n : String) (s : RunState) : RunState :=
  addInfo ("Explicit Step " ++ n) s

/-- The flagged-step loop of `_run_explicit_steps` (`wrangler.py` lines
407-413): skip unflagged entries, run flagged ones in table order, and stop
with `False` after logging the first failure. -/
def runFlagged : List (Bool × String × WStep) → RunState → Bool × RunState
  | [], s => (true, s)
  | (flag, n, f) :: rest, s =>
    if flag then
      match f (stepBanner n s) with
      | (false, s₂) => (false, addErr ("FAILED Step " ++ n ++ " ... stopping...") s₂)
      | (true, s₂) => runFlagged rest s₂
    else runFlagged rest s

/-- `_run_explicit_steps` (`wrangler.py` lines 367-413). -/
def run_explicit_steps (cfg : Config) (impl : StepImpl) (s : RunState) :
    Bool × RunState :=
  let table := flags_and_steps cfg impl
  let s₁ := if table.any (fun e => e.1) then
      addInfo "Running any explicitly selected steps." s
    else s
  runFlagged table s₁

/-- `_setup_environment` (`wrangler.py` lines 953-961): copies resolved data
environment variables into `os.environ` (an opaque effect here) and returns
the literal `True`. -/
def setup_environment (impl : StepImpl) (s : RunState) : Bool × RunState :=
  (true, impl.setupEffect s)

/-- The configuration after `_apply_dev_mode_defaults` has adjusted
`config.dev`. -/
def devAdjustedConfig (cfg : Config) (dOv : Bool) : Config :=
  { cfg with dev := (apply_dev_mode_defaults cfg.workflows cfg.dev dOv).1 }

/-- The run state reached just before workflow dispatch in
`_main_uncaught_core`: after `_setup_environment`, the dev-mode log records,
and the `Running workflows` banner. -/
def preWorkflowState (impl : StepImpl) (dOv : Bool) (cfg : Config) (s : RunState) :
    RunState :=
  let s₁ := (setup_environment impl s).2
  let s₂ := { s₁ with log := s₁.log ++ (apply_dev_mode_defaults cfg.workflows cfg.dev dOv).2 }
  if cfg.workflows.isEmpty then s₂
  else addInfo "Running workflows." s₂

/-- `_main_uncaught_core` (`wrangler.py` lines 129-158): set up the
environment, apply dev-mode defaults, dispatch the selected named workflows
fail-fast, then run the explicitly flagged steps. -/
def mainUncaughtCore (impl : StepImpl) (dOv : Bool) (cfg : Config) (s : RunState) :
    Bool × RunState :=
  match setup_environment impl s with
  | (false, s₁) => logErrorB "Failed to set up internal Python environment from spec." s₁
  | (true, _) =>
    let cfg₁ := devAdjustedConfig cfg dOv
    let s₃ := preWorkflowState impl dOv cfg s
    match processWorkflows (workflow_map cfg₁ impl) cfg₁.workflows s₃ with
    | (false, s₄) => (false, s₄)
    | (true, s₄) => run_explicit_steps cfg₁ impl s₄

/-- Partial run of a workflow step list: `some s₁` when every step succeeded,
ending in state `s₁`; `none` as soon as one fails.  Proof device used to name
the state in which a later step starts. -/
def run_steps_pre (name : String) : List (String × WStep) → RunState → Option RunState
  | [], s => some s
  | (sn, f) :: rest, s =>
    match f (addInfo ("Step " ++ sn ++ " of Workflow " ++ name ++ ".") s) with
    | (false, _) => none
    | (true, s₂) => run_steps_pre name rest s₂

/-- Partial run of the workflow dispatch loop (counterpart of
`run_steps_pre` for `processWorkflows`). -/
def workflows_pre (wm : String → Option WStep) : List String → RunState → Option RunState
  | [], s => some s
  | n :: rest, s =>
    match wm n with
    | none => none
    | some f =>
      match f s with
      | (false, _) => none
      | (true, s') => workflows_pre wm rest s'

/-- Partial run of the explicit-step loop (counterpart of `run_steps_pre`
for `runFlagged`). -/
def flagged_pre : List (Bool × String × WStep) → RunState → Option RunState
  | [], s => some s
  | (flag, n, f) :: rest, s =>
    if flag then
      match f (stepBanner n s) with
      | (false, _) => none
      | (true, s₂) => flagged_pre rest s₂
    else flagged_pre rest s

theorem run_steps_pre_append (name : String) :
    ∀ (pre rest : List (String × WStep)) (s s₁ : RunState),
      run_steps_pre name pre s = some s₁ →
      run_workflow_steps name (pre ++ rest) s = run_workflow_steps name rest s₁
  | [], rest, s, s₁, h => by
      simp only [run_steps_pre, Option.some.injEq] at h
      subst h; rfl
  | (sn, f) :: pre', rest, s, s₁, h => by
      simp only [run_steps_pre] at h
      simp only [List.cons_append, run_workflow_steps]
      rcases hf : f (addInfo ("Step " ++ sn ++ " of Workflow " ++ name ++ ".") s) with ⟨b, s₂⟩
      rw [hf] at h
      cases b with
      | false => exact absurd h (by simp)
      | true => exact run_steps_pre_append name pre' rest s₂ s₁ h

theorem workflows_pre_append (wm : String → Option WStep) :
    ∀ (pre rest : List String) (s s₁ : RunState),
      workflows_pre wm pre s = some s₁ →
      processWorkflows wm (pre ++ rest) s = processWorkflows wm rest s₁
  | [], rest, s, s₁, h => by
      simp only [workflows_pre, Option.some.injEq] at h
      subst h; rfl
  | n :: pre', rest, s, s₁, h => by
      simp only [workflows_pre] at h
      simp only [List.cons_append, processWorkflows]
      cases hw : wm n with
      | none => rw [hw] at h; exact absurd h (by simp)
      | some f =>
        rw [hw] at h
        dsimp only at h ⊢
        rcases hf : f s with ⟨b, s₂⟩
        rw [hf] at h
        cases b with
        | false => exact absurd h (by simp)
        | true =>
          dsimp only at h ⊢
          exact workflows_pre_append wm pre' rest s₂ s₁ h

theorem flagged_pre_append :
    ∀ (pre rest : List (Bool × String × WStep)) (s s₁ : RunState),
      flagged_pre pre s = some s₁ →
      runFlagged (pre ++ rest) s = runFlagged rest s₁
  | [], rest, s, s₁, h => by
      simp only [flagged_pre, Option.some.injEq] at h
      subst h; rfl
  | (flag, n, f) :: pre', rest, s, s₁, h => by
      simp only [flagged_pre] at h
      simp only [List.cons_append, runFlagged]
      cases flag with
      | false =>
        rw [if_neg (by decide)] at h ⊢
        exact flagged_pre_append pre' rest s s₁ h
      | true =>
        rw [if_pos (by decide)] at h ⊢
        rcases hf : f (stepBanner n s) with ⟨b, s₂⟩
        rw [hf] at h
        cases b with
        | false => exact absurd h (by simp)
        | true =>
          dsimp only at h ⊢
          exact flagged_pre_append pre' rest s₂ s₁ h

/-- C2: named workflows fail fast.  If the steps before `(sn, f)` all succeed
and `f` fails, then `run_workflow_steps` on the whole list equals the logged
failure result of `f` alone: the result is `false`, it does not depend on the
steps after `f` (so none of them executes), and the final state is exactly the
state produced by the completed steps plus the failing step and the error
record (no completed step is rolled back).  Moreover a failing (or undefined)
workflow makes the dispatch loop of `_main_uncaught_core` return the logged
failure, and then the whole run result is `false`. -/
theorem C2_workflow_fail_fast :
    (∀ (name : String) (pre : List (String × WStep)) (sn : String) (f : WStep)
        (post : List (String × WStep)) (s s₁ s₂ : RunState),
      run_steps_pre name pre s = some s₁ →
      f (addInfo ("Step " ++ sn ++ " of Workflow " ++ name ++ ".") s₁) = (false, s₂) →
      run_workflow_steps name (pre ++ (sn, f) :: post) s
        = logErrorB ("FAILED Workflow " ++ name ++ " Step " ++ sn ++ ".") s₂)
    ∧ (∀ (wm : String → Option WStep) (pre : List String) (w : String)
        (post : List String) (fw : WStep) (s s₁ s₂ : RunState),
      workflows_pre wm pre s = some s₁ → wm w = some fw → fw s₁ = (false, s₂) →
      processWorkflows wm (pre ++ w :: post) s
        = logErrorB ("Workflow " ++ w ++ " failed.  Exiting...") s₂)
    ∧ (∀ (impl : StepImpl) (dOv : Bool) (cfg : Config) (s : RunState),
      (processWorkflows (workflow_map (devAdjustedConfig cfg dOv) impl)
          (devAdjustedConfig cfg dOv).workflows (preWorkflowState impl dOv cfg s)).1
        = false →
      (mainUncaughtCore impl dOv cfg s).1 = false) := by
  refine ⟨?_, ?_, ?_⟩
  · intro name pre sn f post s s₁ s₂ hpre hf
    rw [run_steps_pre_append name pre ((sn, f) :: post) s s₁ hpre]
    simp only [run_workflow_steps]
    rw [hf]
  · intro wm pre w post fw s s₁ s₂ hpre hw hf
    rw [workflows_pre_append wm pre (w :: post) s s₁ hpre]
    simp only [processWorkflows]
    rw [hw]
    dsimp only
    rw [hf]
  · intro impl dOv cfg s h
    unfold mainUncaughtCore
    rcases hp : processWorkflows (workflow_map (devAdjustedConfig cfg dOv) impl)
        (devAdjustedConfig cfg dOv).workflows (preWorkflowState impl dOv cfg s)
      with ⟨b, s₄⟩
    rw [hp] at h
    cases b with
    | false => simp [setup_environment, hp]
    | true => exact absurd h (by simp)

/-- Concrete instantiation of `C2_workflow_fail_fast`: a three-step workflow
whose middle step fails stops there with a failure result. -/
theorem C2_workflow_fail_fast_witness :
    run_workflow_steps "w" ([("_a", wfOk)] ++ ("_b", wfFail) :: [("_c", wfOk)]) s0
      = logErrorB "FAILED Workflow w Step _b."
          (addInfo "Step _b of Workflow w."
            (addInfo "Step _a of Workflow w." s0)) := by
  exact C2_workflow_fail_fast.1 "w" [("_a", wfOk)] "_b" wfFail [("_c", wfOk)] s0
    (addInfo "Step _a of Workflow w." s0)
    (addInfo "Step _b of Workflow w." (addInfo "Step _a of Workflow w." s0))
    (by decide) (by decide)

theorem processWorkflows_true_split (wm : String → Option WStep) :
    ∀ (pre rest : List String) (s : RunState),
      (processWorkflows wm (pre ++ rest) s).1 = true →
      ∃ s₁, workflows_pre wm pre s = some s₁
        ∧ processWorkflows wm (pre ++ rest) s = processWorkflows wm rest s₁
  | [], rest, s, _ => ⟨s, rfl, rfl⟩
  | n :: pre', rest, s, h => by
      simp only [List.cons_append, processWorkflows] at h ⊢
      simp only [workflows_pre]
      cases hw : wm n with
      | none => rw [hw] at h; exact absurd h (by simp [logErrorB])
      | some f =>
        rw [hw] at h
        dsimp only at h ⊢
        rcases hf : f s with ⟨b, s'⟩
        rw [hf] at h
        cases b with
        | false => exact absurd h (by simp [logErrorB])
        | true =>
          dsimp only at h ⊢
          exact processWorkflows_true_split wm pre' rest s' h

theorem runFlagged_true_split :
    ∀ (pre rest : List (Bool × String × WStep)) (s : RunState),
      (runFlagged (pre ++ rest) s).1 = true →
      ∃ s₁, flagged_pre pre s = some s₁
        ∧ runFlagged (pre ++ rest) s = runFlagged rest s₁
  | [], rest, s, _ => ⟨s, rfl, rfl⟩
  | (flag, n, f) :: pre', rest, s, h => by
      simp only [List.cons_append, runFlagged] at h ⊢
      simp only [flagged_pre]
      cases flag with
      | false =>
        rw [if_neg (by decide)] at h ⊢
        exact runFlagged_true_split pre' rest s h
      | true =>
        rw [if_pos (by decide)] at h ⊢
        rcases hf : f (stepBanner n s) with ⟨b, s'⟩
        rw [hf] at h
        cases b with
        | false => exact absurd h (by simp)
        | true =>
          dsimp only at h ⊢
          exact runFlagged_true_split pre' rest s' h

/-- C3: the overall run result of `_main_uncaught_core` is `true` exactly when
the workflow-dispatch phase over the selected named workflows returns `true`
and the explicit-step phase on the resulting state returns `true`; a `true`
dispatch phase requires every selected workflow (at its point in the sequence)
to be defined and succeed, and a `true` explicit phase requires every flagged
step (at its point in the table) to succeed.  When the dispatch phase fails,
the core returns its failure result directly, so no explicit step is
attempted. -/
theorem C3_overall_success :
    (∀ (impl : StepImpl) (dOv : Bool) (cfg : Config) (s : RunState),
      ((mainUncaughtCore impl dOv cfg s).1 = true ↔
        ((processWorkflows (workflow_map (devAdjustedConfig cfg dOv) impl)
            (devAdjustedConfig cfg dOv).workflows (preWorkflowState impl dOv cfg s)).1 = true
         ∧ (run_explicit_steps (devAdjustedConfig cfg dOv) impl
             (processWorkflows (workflow_map (devAdjustedConfig cfg dOv) impl)
               (devAdjustedConfig cfg dOv).workflows (preWorkflowState impl dOv cfg s)).2).1
            = true))
      ∧ (∀ s₄ : RunState,
        processWorkflows (workflow_map (devAdjustedConfig cfg dOv) impl)
            (devAdjustedConfig cfg dOv).workflows (preWorkflowState impl dOv cfg s)
          = (false, s₄) →
        mainUncaughtCore impl dOv cfg s = (false, s₄)))
    ∧ (∀ (wm : String → Option WStep) (pre : List String) (n : String)
        (post : List String) (s : RunState),
      (processWorkflows wm (pre ++ n :: post) s).1 = true →
      ∃ s₁ f, workflows_pre wm pre s = some s₁ ∧ wm n = some f ∧ (f s₁).1 = true)
    ∧ (∀ (pre : List (Bool × String × WStep)) (n : String) (f : WStep)
        (post : List (Bool × String × WStep)) (s : RunState),
      (runFlagged (pre ++ (true, n, f) :: post) s).1 = true →
      ∃ s₁, flagged_pre pre s = some s₁ ∧ (f (stepBanner n s₁)).1 = true) := by
  refine ⟨?_, ?_, ?_⟩
  · intro impl dOv cfg s
    constructor
    · unfold mainUncaughtCore
      rcases hp : processWorkflows (workflow_map (devAdjustedConfig cfg dOv) impl)
          (devAdjustedConfig cfg dOv).workflows (preWorkflowState impl dOv cfg s)
        with ⟨b, s₄⟩
      constructor
      · intro hcore
        cases b with
        | false => simp [setup_environment, hp] at hcore
        | true =>
          refine ⟨rfl, ?_⟩
          simpa [setup_environment, hp] using hcore
      · intro hand
        cases b with
        | false => exact absurd hand.1 (by simp)
        | true => simpa [setup_environment, hp] using hand.2
    · intro s₄ hp
      unfold mainUncaughtCore
      simp [setup_environment, hp]
  · intro wm pre n post s h
    obtain ⟨s₁, hpre, heq⟩ := processWorkflows_true_split wm pre (n :: post) s h
    rw [heq] at h
    simp only [processWorkflows] at h
    cases hw : wm n with
    | none => rw [hw] at h; exact absurd h (by simp [logErrorB])
    | some f =>
      rw [hw] at h
      dsimp only at h
      rcases hf : f s₁ with ⟨b, s'⟩
      rw [hf] at h
      cases b with
      | false => exact absurd h (by simp [logErrorB])
      | true => exact ⟨s₁, f, hpre, rfl, by rw [hf]⟩
  · intro pre n f post s h
    obtain ⟨s₁, hpre, heq⟩ := runFlagged_true_split pre ((true, n, f) :: post) s h
    rw [heq] at h
    simp only [runFlagged] at h
    rw [if_pos (by decide)] at h
    rcases hf : f (stepBanner n s₁) with ⟨b, s'⟩
    rw [hf] at h
    cases b with
    | false => exact absurd h (by simp)
    | true => exact ⟨s₁, hpre, by rw [hf]⟩

/-- Concrete instantiation of `C3_overall_success`: a run selecting the
undefined workflow name `nope` fails without attempting explicit steps, and
its result equals the dispatch-phase failure state. -/
theorem C3_overall_success_witness :
    mainUncaughtCore {} false { workflows := ["nope"], env_delete := true } s0
      = (false, addErr "Undefined workflow nope."
          (preWorkflowState {} false { workflows := ["nope"], env_delete := true } s0)) := by
  exact (C3_overall_success.1 {} false { workflows := ["nope"], env_delete := true } s0).2
    _ (by decide)

/-- The step names of the explicit-step table in priority order (the
`step.__name__` values logged by `_run_explicit_steps`). -/
def explicit_step_names (cfg : Config) (impl : StepImpl) : List String :=
  (flags_and_steps cfg impl).map (fun e => e.2.1)

theorem runFlagged_filter :
    ∀ (table : List (Bool × String × WStep)) (s : RunState),
      runFlagged table s = runFlagged (table.filter (fun e => e.1)) s
  | [], _ => rfl
  | (flag, n, f) :: rest, s => by
      cases flag with
      | false =>
        have hfil : ((false, n, f) :: rest).filter (fun e => e.1)
            = rest.filter (fun e => e.1) := rfl
        rw [hfil]
        simp only [runFlagged]
        rw [if_neg (by decide)]
        exact runFlagged_filter rest s
      | true =>
        have hfil : ((true, n, f) :: rest).filter (fun e => e.1)
            = (true, n, f) :: rest.filter (fun e => e.1) := rfl
        rw [hfil]
        simp only [runFlagged]
        rw [if_pos (by decide), if_pos (by decide)]
        rcases hf : f (stepBanner n s) with ⟨b, s₂⟩
        cases b with
        | false => rfl
        | true => exact runFlagged_filter rest s₂

theorem explicit_step_names_eq (cfg : Config) (impl : StepImpl) :
    explicit_step_names cfg impl =
      ["_prepare_all_repositories", "_compile_requirements", "_initialize_environment",
       "_install_packages", "_test_imports", "_test_notebooks", "_update_spec_sha256",
       "_validate_spec", "_pack_environment", "_unpack_environment", "_register_environment",
       "_unregister_environment", "_env_print_name", "_spec_add", "_spec_list",
       "_finalize_dev_overrides", "_data_collect", "_data_list", "_data_download",
       "_data_delete", "_data_update", "_data_validate", "_data_unpack", "_data_pack",
       "_data_print_exports", "_data_symlink_install_data", "_delete_repos",
       "_uninstall_packages", "_delete_environment", "_cleanup_kernels", "_env_compact",
       "_reset_spec", "_data_reset_spec", "_reset_log"] := rfl

/-- C4: the explicit steps run in the fixed priority order of the table in
`_run_explicit_steps`, not in flag-supply order: only flagged entries execute,
in table order (`runFlagged` is invariant under discarding unflagged
entries); in that fixed order package install precedes import and notebook
testing and environment deletion follows pack, unpack and register; and the
first flagged step that fails makes the phase stop with the logged failure —
the result does not depend on the entries after it, so no later explicit step
executes. -/
theorem C4_explicit_step_order :
    (∀ (cfg : Config) (impl : StepImpl),
      (explicit_step_names cfg impl).indexOf "_install_packages"
          < (explicit_step_names cfg impl).indexOf "_test_imports"
      ∧ (explicit_step_names cfg impl).indexOf "_install_packages"
          < (explicit_step_names cfg impl).indexOf "_test_notebooks"
      ∧ (explicit_step_names cfg impl).indexOf "_pack_environment"
          < (explicit_step_names cfg impl).indexOf "_delete_environment"
      ∧ (explicit_step_names cfg impl).indexOf "_unpack_environment"
          < (explicit_step_names cfg impl).indexOf "_delete_environment"
      ∧ (explicit_step_names cfg impl).indexOf "_register_environment"
          < (explicit_step_names cfg impl).indexOf "_delete_environment")
    ∧ (∀ (table : List (Bool × String × WStep)) (s : RunState),
      runFlagged table s = runFlagged (table.filter (fun e => e.1)) s)
    ∧ (∀ (pre : List (Bool × String × WStep)) (n : String) (f : WStep)
        (post : List (Bool × String × WStep)) (s s₁ s₂ : RunState),
      flagged_pre pre s = some s₁ →
      f (stepBanner n s₁) = (false, s₂) →
      runFlagged (pre ++ (true, n, f) :: post) s
        = (false, addErr ("FAILED Step " ++ n ++ " ... stopping...") s₂)) := by
  refine ⟨?_, runFlagged_filter, ?_⟩
  · intro cfg impl
    simp only [explicit_step_names_eq]
    refine ⟨?_, ?_, ?_, ?_, ?_⟩ <;> decide
  · intro pre n f post s s₁ s₂ hpre hf
    rw [flagged_pre_append pre ((true, n, f) :: post) s s₁ hpre]
    simp only [runFlagged]
    rw [if_pos (by decide), hf]

/-- Concrete instantiation of `C4_explicit_step_order`: with an unflagged
entry, a flagged succeeding entry and a flagged failing entry, the failing
entry stops the phase and the trailing entry never runs. -/
theorem C4_explicit_step_order_witness :
    runFlagged ([(false, "_skip", wfOk), (true, "_x", wfOk)]
        ++ (true, "_y", wfFail) :: [(true, "_z", wfOk)]) s0
      = (false, addErr "FAILED Step _y ... stopping..."
          (stepBanner "_y" (stepBanner "_x" s0))) := by
  exact C4_explicit_step_order.2.2 [(false, "_skip", wfOk), (true, "_x", wfOk)]
    "_y" wfFail [(true, "_z", wfOk)] s0 (stepBanner "_x" s0)
    (stepBanner "_y" (stepBanner "_x" s0)) (by decide) (by decide)

/-- Counterexample to C5 as stated: with the `curation` workflow selected, no
developer overrides in the spec, and the dev flag initially `true`, the
dev-mode resolution step leaves development mode on and logs no warning
(`_apply_dev_mode_defaults` only adjusts `config.dev` when `--dev` was not
explicitly set). -/
theorem C5_dev_mode_counterexample :
    ¬ ((apply_dev_mode_defaults ["curation"] true false).1 = false
       ∧ (apply_dev_mode_defaults ["curation"] true false).2.any
            (fun e => e.1 == LogLevel.warning) = true) := by
  decide

/-- C5 amended: whenever a curation-family workflow (`curation` or
`data_curation`) is selected and the specification contains no developer
overrides, the dev-mode resolution step sets development mode off and logs a
warning provided the dev flag was not explicitly set (initially off); when the
dev flag is initially on it is left on and no message is logged. -/
theorem C5_dev_mode_defaults_amended :
    ∀ (workflows : List String) (dev dOv : Bool),
      (workflows.contains "curation" || workflows.contains "data_curation") = true →
      dOv = false →
      (dev = false →
        apply_dev_mode_defaults workflows dev dOv
          = (false, [(LogLevel.warning,
              "No dev_overrides found. Curation will proceed without development overrides.")]))
      ∧ (dev = true →
        apply_dev_mode_defaults workflows dev dOv = (dev, [])) := by
  intro wfs dev dOv hcur hdov
  subst hdov
  constructor
  · intro h
    subst h
    unfold apply_dev_mode_defaults
    rw [if_pos hcur]
    decide
  · intro h
    subst h
    unfold apply_dev_mode_defaults
    rw [if_pos hcur]
    decide

/-- Concrete instantiation of `C5_dev_mode_defaults_amended`: `--curate` with
no overrides and the dev flag unset forces development mode off with a
warning. -/
theorem C5_dev_mode_defaults_amended_witness :
    apply_dev_mode_defaults ["curation"] false false
      = (false, [(LogLevel.warning,
          "No dev_overrides found. Curation will proceed without development overrides.")]) :=
  (C5_dev_mode_defaults_amended ["curation"] false false (by decide) rfl).1 rfl

/-- A Python exception escaping a region of code: either an `Exception`
subclass instance, or a `KeyboardInterrupt` (which is a `BaseException` not
caught by `except Exception`). -/
inductive PyExn where
  | exc (msg : String)
  | keyboardInterrupt
  deriving DecidableEq, Repr

/-- A Python return value that is either an `int` or a `bool` (the
`exit_code` variable of `cli._main` holds both kinds). -/
inductive PyRet where
  | int (n : Nat)
  | bool (b : Bool)
  deriving DecidableEq, Repr

/-- `int(x)` applied to the value returned by `cli.main`, as passed to
`sys.exit` in `cli.py` line 559. -/
def pyToExit : PyRet → Nat
  | PyRet.int n => n
  | PyRet.bool b => if b then 1 else 0

/-- `NotebookWrangler.main` (`wrangler.py` lines 121-127): the workflow
execution core runs inside `except Exception`, which converts an escaping
`Exception` into a logged failure result; a `KeyboardInterrupt` is not an
`Exception` and propagates. -/
def wrangler_main (core : RunState → Except PyExn (Bool × RunState)) (s : RunState) :
    Except PyExn (Bool × RunState) :=
  match core s with
  | Except.ok r => Except.ok r
  | Except.error (PyExn.exc m) =>
    Except.ok (logExceptionB ("Error during curation: " ++ m) s)
  | Except.error PyExn.keyboardInterrupt => Except.error PyExn.keyboardInterrupt

/-- The outcome of the `try` block of `cli._main` (`cli.py` lines 538-550):
`spec_ok` is the truthiness of `utils.uri_to_local_path(args.spec_uri)` and
`ctor_exc` an exception escaping `NotebookWrangler()` construction. -/
inductive TryOutcome where
  | specUnreadable
  | ranCore (success : Bool)
  | interrupted
  | raised (msg : String)
  deriving DecidableEq, Repr

/-- Outcome of `cli._main`'s try/except given the spec readability, a
possible constructor exception, and the behaviour of the workflow core. -/
def cli_try_outcome (spec_ok : Bool) (ctor_exc : Option PyExn)
    (core : RunState → Except PyExn (Bool × RunState)) (s : RunState) : TryOutcome :=
  if !spec_ok then TryOutcome.specUnreadable
  else
    match ctor_exc with
    | some (PyExn.exc m) => TryOutcome.raised m
    | some PyExn.keyboardInterrupt => TryOutcome.interrupted
    | none =>
      match wrangler_main core s with
      | Except.ok (b, _) => TryOutcome.ranCore b
      | Except.error _ => TryOutcome.interrupted

/-- The value returned by `cli._main` (`cli.py` lines 533-555).  In the
unreadable-spec branch `exit_code = 1` (a truthy `int`), in the normal branch
`exit_code` is the `bool` from `NotebookWrangler.main`, in the
`except Exception` branch it is the falsy return of `log.exception`; all
three flow into `return 1 if not exit_code else 0`.  The `KeyboardInterrupt`
handler instead returns `log.error(...)`, i.e. the `bool` `False`, directly. -/
def cli_main_ret (o : TryOutcome) : PyRet :=
  match o with
  | TryOutcome.specUnreadable => PyRet.int (if (1 : Nat) = 0 then 1 else 0)
  | TryOutcome.ranCore b => PyRet.int (if !b then 1 else 0)
  | TryOutcome.raised _ => PyRet.int (if !false then 1 else 0)
  | TryOutcome.interrupted => PyRet.bool false

/-- The process exit code: `sys.exit(int(main()))` where `cli.main` returns
the value of `cli._main` unchanged. -/
def process_exit_code (o : TryOutcome) : Nat := pyToExit (cli_main_ret o)

/-- A workflow core that raises `KeyboardInterrupt` (e.g. the user presses
Ctrl-C during a run). -/
def interruptCore : RunState → Except PyExn (Bool × RunState) :=
  fun _ => Except.error PyExn.keyboardInterrupt

/-- A workflow core that raises an ordinary `Exception`. -/
def raisingCore : RunState → Except PyExn (Bool × RunState) :=
  fun _ => Except.error (PyExn.exc "boom")

/-- C6 exit-code evidence.  The claim holds for ordinary `Exception`s: an
exception escaping `_main_uncaught_core` is caught by `NotebookWrangler.main`,
logged, converted into a failure result, and the process exits 1.  But the
code diverges from the claim on two paths: a `KeyboardInterrupt` escaping the
core is caught by `cli._main`, logged as an error, yet the handler returns
the bool `False` which `sys.exit(int(...))` turns into exit code 0; and an
unreadable spec URI sets `exit_code = 1`, a truthy value that
`return 1 if not exit_code else 0` maps to exit code 0.  So the exit code is
not 1 on every failure. -/
theorem C6_exit_code_evidence :
    process_exit_code (cli_try_outcome true none raisingCore s0) = 1
    ∧ wrangler_main raisingCore s0
        = Except.ok (false, addErr "Error during curation: boom" s0)
    ∧ process_exit_code (cli_try_outcome true none interruptCore s0) = 0
    ∧ process_exit_code (cli_try_outcome false none raisingCore s0) = 0 := by
  refine ⟨rfl, rfl, rfl, rfl⟩

/-- A data URL tuple as returned by `RefdataValidator.get_data_urls`; the
code indexes positions 3 (the unpacked directory name) and 4 (the abstract
destination, an environment-variable expression). -/
structure Tup where
  f0 : String
  f1 : String
  f2 : String
  f3 : String
  f4 : String
  deriving DecidableEq, Repr

/-- The collaborators consulted by `_data_unpack` (`wrangler.py` lines
659-694): pantry-shelf paths and operations, variable resolution, and the
file-system existence check.  Each is opaque to the orchestration logic. -/
structure DataOps where
  archive_filepath : Tup → String
  pantry_data_path : String
  resolve_vars : String → String
  path_exists : String → Bool
  unarchive : String → String → Bool
  save_exports : String → Bool
  register_env_ok : Bool

/-- The unpack destination of one archive tuple (`wrangler.py` lines
667-671): the pantry data path in `pantry` mode, otherwise the
variable-resolved `archive_tuple[4]`. -/
def dest_path (cfg : Config) (ops : DataOps) (t : Tup) : String :=
  if cfg.data_env_vars_mode = "pantry" then ops.pantry_data_path
  else ops.resolve_vars t.f4

/-- `final_path = dest_path / archive_tuple[3]` (`wrangler.py` line 672). -/
def final_path (cfg : Config) (ops : DataOps) (t : Tup) : String :=
  dest_path cfg ops t ++ "/" ++ t.f3

/-- The unpack loop of `_data_unpack` (`wrangler.py` lines 664-681),
additionally returning the list of `unarchive` invocations performed: a tuple
whose final path exists is skipped when `data_no_unpack_existing` is set; a
failing `unarchive` ends the loop with failure. -/
def data_unpack_go (cfg : Config) (ops : DataOps) :
    List Tup → List (String × String) → Bool × List (String × String)
  | [], calls => (true, calls)
  | t :: rest, calls =>
    if ops.path_exists (final_path cfg ops t) && cfg.data_no_unpack_existing then
      data_unpack_go cfg ops rest calls
    else
      if ops.unarchive (ops.archive_filepath t) (dest_path cfg ops t) then
        data_unpack_go cfg ops rest
          (calls ++ [(ops.archive_filepath t, dest_path cfg ops t)])
      else (false, calls ++ [(ops.archive_filepath t, dest_path cfg ops t)])

/-- `_data_unpack` (`wrangler.py` lines 659-694): run the unpack loop, then
save the two exports files (each failure is terminal); the final
`_register_environment` failure only warns and does not affect the result.
The initial `_data_symlink_install_data` call mutates only symlinks and
always returns `True`, so it is not represented. -/
def data_unpack (cfg : Config) (ops : DataOps) (tuples : List Tup) :
    Bool × List (String × String) :=
  match data_unpack_go cfg ops tuples [] with
  | (false, calls) => (false, calls)
  | (true, calls) =>
    if !(ops.save_exports "nbw-spec-exports.sh") then (false, calls)
    else if !(ops.save_exports "nbw-pantry-exports.sh") then (false, calls)
    else (true, calls)

theorem data_unpack_go_spec (cfg : Config) (ops : DataOps)
    (hflag : cfg.data_no_unpack_existing = true) :
    ∀ (tuples : List Tup) (calls : List (String × String)),
      (∀ t ∈ tuples, ops.path_exists (final_path cfg ops t) = false →
        ops.unarchive (ops.archive_filepath t) (dest_path cfg ops t) = true) →
      data_unpack_go cfg ops tuples calls
        = (true, calls ++
            (tuples.filter (fun t => !(ops.path_exists (final_path cfg ops t)))).map
              (fun t => (ops.archive_filepath t, dest_path cfg ops t)))
  | [], calls, _ => by simp [data_unpack_go]
  | t :: rest, calls, h => by
      have hrest : ∀ u ∈ rest, ops.path_exists (final_path cfg ops u) = false →
          ops.unarchive (ops.archive_filepath u) (dest_path cfg ops u) = true :=
        fun u hu => h u (List.mem_cons_of_mem t hu)
      cases he : ops.path_exists (final_path cfg ops t) with
      | true =>
        have : (data_unpack_go cfg ops (t :: rest) calls)
            = data_unpack_go cfg ops rest calls := by
          simp [data_unpack_go, he, hflag]
        rw [this, data_unpack_go_spec cfg ops hflag rest calls hrest]
        simp [List.filter_cons, he]
      | false =>
        have hun := h t (List.mem_cons_self t rest) he
        have : (data_unpack_go cfg ops (t :: rest) calls)
            = data_unpack_go cfg ops rest
                (calls ++ [(ops.archive_filepath t, dest_path cfg ops t)]) := by
          simp [data_unpack_go, he, hun]
        rw [this, data_unpack_go_spec cfg ops hflag rest _ hrest]
        simp [List.filter_cons, he]

/-- C7: with `data_no_unpack_existing` set, `_data_unpack` skips every
selected asset whose final destination directory already exists (no
`unarchive` call is made for it: the performed calls are exactly those for
the tuples whose final path does not exist, in order) and still returns
success, provided the remaining assets unpack and both export files save
successfully. -/
theorem C7_data_unpack_skips_existing :
    ∀ (cfg : Config) (ops : DataOps) (tuples : List Tup),
      cfg.data_no_unpack_existing = true →
      (∀ t ∈ tuples, ops.path_exists (final_path cfg ops t) = false →
        ops.unarchive (ops.archive_filepath t) (dest_path cfg ops t) = true) →
      ops.save_exports "nbw-spec-exports.sh" = true →
      ops.save_exports "nbw-pantry-exports.sh" = true →
      data_unpack cfg ops tuples
        = (true,
            (tuples.filter (fun t => !(ops.path_exists (final_path cfg ops t)))).map
              (fun t => (ops.archive_filepath t, dest_path cfg ops t))) := by
  intro cfg ops tuples hflag hun hs1 hs2
  unfold data_unpack
  rw [data_unpack_go_spec cfg ops hflag tuples [] hun]
  simp [hs1, hs2]

/-- Concrete collaborators for the `C7` witness: of two selected assets, the
first one's final destination already exists. -/
def opsW : DataOps where
  archive_filepath := fun t => "/pantry/archives/" ++ t.f0 ++ ".tgz"
  pantry_data_path := "/pantry/data"
  resolve_vars := fun v => v
  path_exists := fun p => p == "/pantry/data/setA"
  unarchive := fun _ _ => true
  save_exports := fun _ => true
  register_env_ok := true

/-- Concrete instantiation of `C7_data_unpack_skips_existing`: the asset
whose destination `/pantry/data/setA` exists is skipped (only the other asset
is unarchived) and the step succeeds. -/
theorem C7_data_unpack_skips_existing_witness :
    data_unpack { data_env_vars_mode := "pantry", data_no_unpack_existing := true } opsW
        [⟨"a", "", "", "setA", "$D"⟩, ⟨"b", "", "", "setB", "$D"⟩]
      = (true, [("/pantry/archives/b.tgz", "/pantry/data")]) := by
  have h := C7_data_unpack_skips_existing
    { data_env_vars_mode := "pantry", data_no_unpack_existing := true } opsW
    [⟨"a", "", "", "setA", "$D"⟩, ⟨"b", "", "", "setB", "$D"⟩]
    rfl (by decide) rfl rfl
  rw [h]
  decide

/-- `_data_list` (`wrangler.py` lines 602-607): prints `urls[:-1]` — every
selected tuple except the last — and returns the literal `True`.  The second
component is the printed sequence. -/
def data_list (urls : List Tup) : Bool × List Tup :=
  (true, urls.dropLast)

/-- C8: for `n` selected data URL tuples, `_data_list` prints exactly the
first `n - 1` tuples in order (nothing when `n` is 0 or 1, since the Python
slice `urls[:-1]` drops the final element) and always returns success. -/
theorem C8_data_list_drops_last :
    ∀ urls : List Tup,
      (data_list urls).1 = true
      ∧ (data_list urls).2 = urls.take (urls.length - 1)
      ∧ (urls.length ≤ 1 → (data_list urls).2 = []) := by
  intro urls
  refine ⟨rfl, ?_, ?_⟩
  · exact List.dropLast_eq_take urls
  · intro hlen
    match urls, hlen with
    | [], _ => rfl
    | [t], _ => rfl

/-- Concrete instantiation of `C8_data_list_drops_last` at a two-element and
a one-element selection. -/
theorem C8_data_list_drops_last_witness :
    (data_list [⟨"a", "", "", "", ""⟩, ⟨"b", "", "", "", ""⟩]).2
        = [⟨"a", "", "", "", ""⟩]
    ∧ (data_list [⟨"a", "", "", "", ""⟩]).2 = [] := by
  constructor
  · have h := (C8_data_list_drops_last [⟨"a", "", "", "", ""⟩, ⟨"b", "", "", "", ""⟩]).2.1
    rw [h]
    decide
  · exact (C8_data_list_drops_last [⟨"a", "", "", "", ""⟩]).2.2 (by decide)

/-- `EnvironmentManager.is_base_env_alias` (`environment.py` lines 373-379):
`env_name in ["base", "python3"]`. -/
def is_base_env_alias (env_name : String) : Bool :=
  env_name == "base" || env_name == "python3"

/-- Python `s.startswith(pre)`, computed on the character lists underlying
the strings. -/
def strStartsWith (s pre : String) : Bool :=
  pre.data.isPrefixOf s.data

/-- Python `s.endswith(suf)`, computed on the character lists underlying the
strings. -/
def strEndsWith (s suf : String) : Bool :=
  suf.data.isSuffixOf s.data

/-- `EnvironmentManager.environment_exists` (`environment.py` lines 341-353):
base aliases exist unconditionally; otherwise some environment path listed by
`get_existing_envs` must start with `str(NBW_MM)` (the micromamba root,
passed here as `nbw_mm`) and end with the environment name. -/
def environment_exists (nbw_mm : String) (envs : List String) (env_name : String) :
    Bool :=
  if is_base_env_alias env_name then true
  else envs.any (fun env => strStartsWith env nbw_mm && strEndsWith env env_name)

/-- C9: for the names `base` and `python3`, `environment_exists` returns
`True` for every possible listing (so without consulting it); for any other
name it returns `True` only if some listed environment path under the
micromamba root ends with that name. -/
theorem C9_environment_exists :
    (∀ (nbw_mm : String) (envs : List String),
      environment_exists nbw_mm envs "base" = true
      ∧ environment_exists nbw_mm envs "python3" = true)
    ∧ (∀ (nbw_mm : String) (envs : List String) (name : String),
      is_base_env_alias name = false →
      environment_exists nbw_mm envs name = true →
      ∃ env ∈ envs, strStartsWith env nbw_mm = true ∧ strEndsWith env name = true) := by
  constructor
  · intro nbw_mm envs
    exact ⟨rfl, rfl⟩
  · intro nbw_mm envs name hbase h
    unfold environment_exists at h
    rw [if_neg (by simp [hbase])] at h
    simpa [List.any_eq_true, Bool.and_eq_true] using h

/-- Concrete instantiation of `C9_environment_exists`: `base` exists against
an empty listing, and a `True` result for `tess-kernel` yields a listed path
under the root ending in that name. -/
theorem C9_environment_exists_witness :
    environment_exists "/nbw/mm" [] "base" = true
    ∧ (∃ env ∈ ["/nbw/mm/envs/tess-kernel"],
        strStartsWith env "/nbw/mm" = true ∧ strEndsWith env "tess-kernel" = true) := by
  constructor
  · exact (C9_environment_exists.1 "/nbw/mm" []).1
  · exact C9_environment_exists.2 "/nbw/mm" ["/nbw/mm/envs/tess-kernel"] "tess-kernel"
      (by decide) (by decide)

/-- Process state for `test_nb_imports`: the current working directory of
the process plus the log. -/
structure CwdState where
  cwd : String
  log : List (LogLevel × String)
  deriving DecidableEq, Repr

/-- Append a log record to a `CwdState`. -/
def addLogC (lvl : LogLevel) (msg : String) (s : CwdState) : CwdState :=
  { s with log := s.log ++ [(lvl, msg)] }

/-- The collaborators of `EnvironmentManager.test_nb_imports`
(`environment.py` lines 399-432): the per-notebook `test_imports` call (which
runs subprocesses, may change the state arbitrarily, and may raise — the
`Except.error` case), the include-regex match (`re.search`), and
`Path(notebook).parent`. -/
structure NbImportsCtx where
  test_imports_call : String → List String → CwdState → Except Unit Bool × CwdState
  include_matches : String → Bool
  parent_dir : String → String

/-- The notebook loop of `test_nb_imports` (`environment.py` lines 413-432).
`here = os.getcwd()` is captured at the top of each iteration; the `finally`
clause restores it on the skip path (`continue`), the normal path, and the
exception path alike.  An exception from `test_imports` is caught, logged,
and sets `no_errors = False`. -/
def test_nb_imports_go (ctx : NbImportsCtx) (env_name : String) :
    List (String × List String) → Bool → CwdState → Bool × CwdState
  | [], no_errors, s => (no_errors, s)
  | (nb, imps) :: rest, no_errors, s =>
    if !(ctx.include_matches nb) then
      test_nb_imports_go ctx env_name rest no_errors
        { addLogC LogLevel.debug
            ("Skipping import tests for " ++ nb ++ " not matching include regex.") s
          with cwd := s.cwd }
    else
      match ctx.test_imports_call env_name imps
          (addLogC LogLevel.info ("Testing imports for " ++ nb ++ ".")
            { s with cwd := ctx.parent_dir nb }) with
      | (Except.ok b, s₂) =>
        test_nb_imports_go ctx env_name rest (b && no_errors) { s₂ with cwd := s.cwd }
      | (Except.error _, s₂) =>
        test_nb_imports_go ctx env_name rest false
          { addLogC LogLevel.error "Failed due to exception." s₂ with cwd := s.cwd }

/-- `test_nb_imports` (`environment.py` lines 399-432): log the banner, then
run the notebook loop with `no_errors = True`. -/
def test_nb_imports (ctx : NbImportsCtx) (env_name : String)
    (nb_to_imports : List (String × List String)) (s : CwdState) : Bool × CwdState :=
  test_nb_imports_go ctx env_name nb_to_imports true
    (addLogC LogLevel.info
      ("Testing imports by notebook for " ++ toString nb_to_imports.length
        ++ " notebooks...") s)

theorem test_nb_imports_go_cwd (ctx : NbImportsCtx) (env_name : String) :
    ∀ (nbs : List (String × List String)) (ne : Bool) (s : CwdState),
      (test_nb_imports_go ctx env_name nbs ne s).2.cwd = s.cwd
  | [], _, _ => rfl
  | (nb, imps) :: rest, ne, s => by
      unfold test_nb_imports_go
      cases hm : ctx.include_matches nb with
      | false =>
        rw [if_pos (by simp [hm])]
        exact test_nb_imports_go_cwd ctx env_name rest ne _
      | true =>
        rw [if_neg (by simp [hm])]
        rcases ctx.test_imports_call env_name imps
            (addLogC LogLevel.info ("Testing imports for " ++ nb ++ ".")
              { s with cwd := ctx.parent_dir nb }) with ⟨r, s₂⟩
        cases r with
        | ok b => exact test_nb_imports_go_cwd ctx env_name rest (b && ne) _
        | error e => exact test_nb_imports_go_cwd ctx env_name rest false _

/-- C10: for every mapping of notebooks to imports (hence also for every
prefix of the processing order, each prefix being such a mapping), the
notebook loop of `test_nb_imports` leaves the process current working
directory equal to its value on entry — each iteration restores `here` in its
`finally` clause on the skip, success and exception paths alike — and so does
`test_nb_imports` as a whole. -/
theorem C10_test_nb_imports_cwd_restored :
    ∀ (ctx : NbImportsCtx) (env_name : String)
      (nbs : List (String × List String)) (ne : Bool) (s : CwdState),
      (test_nb_imports_go ctx env_name nbs ne s).2.cwd = s.cwd
      ∧ (test_nb_imports ctx env_name nbs s).2.cwd = s.cwd := by
  intro ctx env_name nbs ne s
  constructor
  · exact test_nb_imports_go_cwd ctx env_name nbs ne s
  · exact test_nb_imports_go_cwd ctx env_name nbs true _

end NbWrangler
